import Mathlib

/-!
Shallow embedding of the MLX90614 infrared-thermometer STM32 driver
(`Src/mlx90614_ir_thermometer_driver.c`) and verification of its
natural-language specification.

Modelling conventions:
* C `uint8_t` / `uint16_t` values are `Nat` with explicit `% 256` /
  bit-masking where overflow or truncation matters.
* The STM32 HAL bus transport (an external collaborator) is a structure of
  response functions (`Bus`); each driver operation additionally returns the
  ordered trace of bus transactions it issued (`BusOp`), so that ordering and
  abort behaviour can be stated.
* The global driver state (`p_hi2c`, `mlx90614_slave_address`,
  `mlx90614_slave_address_one_bit_left_shifted`, `mlx90614_temperature_type`,
  and the conversion function pointer) is an explicit `DriverState` record;
  the function pointer `p_get_mlx90614_converted_temperature` is modelled by
  the selector of the conversion function it points to.
* C `float` arithmetic in the temperature conversions is abstracted to exact
  rational arithmetic (`ℚ`); the output pointer `*dst` of the temperature
  getters is modelled as an `Option ℚ` result (`none` = not written).
-/

set_option maxRecDepth 4096

namespace MLX90614

/-! ### Status codes

`HAL_StatusTypeDef` (STM32 HAL, external collaborator) and `MLX90614_Status`
are C enums backed by integers; the driver's `HAL_ret_handler` relies on that
numeric identification (its `default` case returns the HAL value unchanged as
an `MLX90614_Status`), so both are embedded as their numeric values. -/

def HAL_OK : Nat := 0

def HAL_ERROR : Nat := 1

def HAL_BUSY : Nat := 2

def HAL_TIMEOUT : Nat := 3

def MLX90614_EC_OK : Nat := 0

def MLX90614_EC_STOP : Nat := 1

def MLX90614_EC_NR : Nat := 2

def MLX90614_EC_NA : Nat := 3

def MLX90614_EC_ERR : Nat := 4

/-! ### Driver constants (from the `#define`s of the source file) -/

def MLX90614_RAM_OR_EEPROM_ADDRESS_SIZE : Nat := 1

def MLX90614_TA_RAM_ADDRESS : Nat := 0x06

def MLX90614_TOBJ1_RAM_ADDRESS : Nat := 0x07

def MLX90614_TOBJ2_RAM_ADDRESS : Nat := 0x08

def MLX90614_TEMPERATURE_RESULT_SIZE : Nat := 2

def MLX90614_EEPROM_SLAVE_ADDRESS_SIZE : Nat := 2

def MLX90614_I2C_WRITE_COMMAND_SIZE : Nat := 4

def MLX90614_SLAVE_ADDRESS_EEPROM_ADDRESS : Nat := 0x2E

def MLX90614_PEC_RESET_VALUE : Nat := 0x00

def MLX90614_SLAVE_ADDRESS_EEPROM_ERASE_VALUE : Nat := 0x00

def MLX90614_MAX_VALID_SLAVE_ADDRESS_VALUE : Nat := 0x7E

def MLX90614_MAX_VALID_SLAVE_ADDRESS_VALUE_PLUS_ONE : Nat := 0x7F

def MLX90614_MIN_VALID_SLAVE_ADDRESS_VALUE : Nat := 0x03

def MLX90614_ERASE_OR_WRITE_CELL_TIME : Nat := 1000

def MLX90614_I2C_TIMEOUT : Nat := 100

def IS_MLX90614_READY_NUMBER_OF_TRIALS : Nat := 1

/-- `MLX90614_Temp_t` enum value `MLX90614_Temp_K = 0`. -/
def MLX90614_Temp_K : Nat := 0

/-- `MLX90614_Temp_t` enum value `MLX90614_Temp_C = 1`. -/
def MLX90614_Temp_C : Nat := 1

/-- `MLX90614_Temp_t` enum value `MLX90614_Temp_F = 2`. -/
def MLX90614_Temp_F : Nat := 2

/-! ### PEC (CRC-8) computation, from `calculate_pec` in the source -/

/-- One iteration of the 8-round shift loop inside `calculate_pec`:
`bit_check = data & 0x80; data = data << 1;` (on a `uint8_t`, hence `% 256`)
`if (bit_check != 0) data = data ^ 0x07;`. -/
def calculate_pec_shift (data : Nat) : Nat :=
  let bit_check := data &&& 0x80
  let data1 := (data <<< 1) % 256
  if bit_check ≠ 0 then data1 ^^^ 0x07 else data1

/-- `calculate_pec(init_pec, new_data)` from the source: XOR the two
`uint8_t` arguments, then run the shift loop 8 times. -/
def calculate_pec (init_pec new_data : Nat) : Nat :=
  calculate_pec_shift^[8] ((init_pec % 256) ^^^ (new_data % 256))

/-- Modelled from the spec: one shift round of the reference CRC-8 variant
(polynomial 0x07, MSB-first) — "if the top bit of `acc` is set,
`acc = (acc << 1) XOR 0x07`, else `acc = acc << 1`", on a byte accumulator. -/
def crc8_spec_shift (acc : Nat) : Nat :=
  if acc &&& 0x80 ≠ 0 then ((acc <<< 1) ^^^ 0x07) % 256 else (acc <<< 1) % 256

/-- Modelled from the spec: absorbing one byte into the reference CRC-8
accumulator — "`acc = acc XOR b`; then perform 8 iterations" of the shift. -/
def crc8_spec_update (acc b : Nat) : Nat :=
  crc8_spec_shift^[8] ((acc ^^^ b) % 256)

/-- Modelled from the spec: the reference CRC-8 (polynomial 0x07, MSB-first,
no final inversion) of an ordered byte sequence, starting from accumulator 0. -/
def crc8_spec (bytes : List Nat) : Nat :=
  bytes.foldl crc8_spec_update MLX90614_PEC_RESET_VALUE

lemma calculate_pec_shift_eq_crc8_spec_shift :
    ∀ d, d < 256 → calculate_pec_shift d = crc8_spec_shift d := by decide

lemma calculate_pec_shift_lt : ∀ d, d < 256 → calculate_pec_shift d < 256 := by
  decide

lemma xor_lt_256 (a b : Nat) (ha : a < 256) (hb : b < 256) : a ^^^ b < 256 := by
  have h : Nat.bitwise bne a b < 2 ^ 8 :=
    Nat.bitwise_lt (by simpa using ha) (by simpa using hb)
  have h256 : (2 : Nat) ^ 8 = 256 := by norm_num
  rw [h256] at h
  exact h

lemma calculate_pec_shift_iter_eq :
    ∀ d, d < 256 → calculate_pec_shift^[8] d = crc8_spec_shift^[8] d := by
  decide

lemma calculate_pec_eq_crc8_spec_update (a b : Nat) (ha : a < 256)
    (hb : b < 256) : calculate_pec a b = crc8_spec_update a b := by
  unfold calculate_pec crc8_spec_update
  rw [Nat.mod_eq_of_lt ha, Nat.mod_eq_of_lt hb,
    Nat.mod_eq_of_lt (xor_lt_256 a b ha hb)]
  exact calculate_pec_shift_iter_eq _ (xor_lt_256 a b ha hb)

lemma crc8_spec_update_lt (a b : Nat) : crc8_spec_update a b < 256 := by
  unfold crc8_spec_update
  have h : ∀ d, d < 256 → crc8_spec_shift^[8] d < 256 := by decide
  exact h _ (Nat.mod_lt _ (by omega))

lemma foldl_calculate_pec_eq_crc8 (bytes : List Nat) :
    (∀ b ∈ bytes, b < 256) → ∀ acc, acc < 256 →
      bytes.foldl calculate_pec acc = bytes.foldl crc8_spec_update acc := by
  induction bytes with
  | nil => intro _ acc _; rfl
  | cons b bs ih =>
    intro h acc hacc
    have hb : b < 256 := h b (List.mem_cons_self b bs)
    have hbs : ∀ x ∈ bs, x < 256 := fun x hx => h x (List.mem_cons_of_mem b hx)
    simp only [List.foldl_cons]
    rw [calculate_pec_eq_crc8_spec_update acc b hacc hb]
    exact ih hbs _ (crc8_spec_update_lt acc b)

/-! ### Bus transport model (external collaborator, STM32 HAL in the source)

The HAL primitives `HAL_I2C_IsDeviceReady`, `HAL_I2C_Mem_Read`,
`HAL_I2C_Master_Transmit` and `HAL_Delay` are out-of-scope collaborators; a
`Bus` gives their responses as pure functions of the call arguments, and each
driver operation returns the ordered trace of the calls it issued. -/

/-- One bus transaction issued by the driver, in issue order.  `readOp` is a
`HAL_I2C_Mem_Read` of 2 bytes, `writeOp` a `HAL_I2C_Master_Transmit` of the
given frame, `probeOp` a `HAL_I2C_IsDeviceReady`, `delayOp` a `HAL_Delay`. -/
inductive BusOp where
  | probeOp (wire_address : Nat)
  | readOp (wire_address mem_address : Nat)
  | writeOp (wire_address : Nat) (frame : List Nat)
  | delayOp (ms : Nat)
  deriving DecidableEq, Repr

/-- Responses of the bus transport.  `isDeviceReady`, `transmit` return a
`HAL_StatusTypeDef` value; `memRead wire mem` returns the HAL status together
with the two bytes deposited in the caller's buffer (low byte first). -/
structure Bus where
  isDeviceReady : Nat → Nat
  memRead : Nat → Nat → Nat × Nat × Nat
  transmit : Nat → List Nat → Nat

/-- The driver's global mutable state: the stored bus handle `p_hi2c`
(an opaque identifier), the believed slave address and its wire-shifted form,
the selected temperature type, and the conversion-function pointer
`p_get_mlx90614_converted_temperature`, modelled as the selector (a
`MLX90614_Temp_t` value) of the conversion function it points to. -/
structure DriverState where
  p_hi2c : Nat
  mlx90614_slave_address : Nat
  mlx90614_slave_address_one_bit_left_shifted : Nat
  mlx90614_temperature_type : Nat
  p_get_mlx90614_converted_temperature : Nat
  deriving DecidableEq, Repr

/-- `HAL_ret_handler` from the source: `HAL_BUSY`/`HAL_TIMEOUT` map to
`MLX90614_EC_NR`, `HAL_ERROR` to `MLX90614_EC_ERR`, and any other value
(in practice only `HAL_OK`) passes through unchanged. -/
def HAL_ret_handler (HAL_status : Nat) : Nat :=
  if HAL_status = HAL_BUSY ∨ HAL_status = HAL_TIMEOUT then MLX90614_EC_NR
  else if HAL_status = HAL_ERROR then MLX90614_EC_ERR
  else HAL_status

/-! ### Temperature conversions (C `float` abstracted to exact `ℚ`) -/

/-- `get_mlx90614_converted_temperature_in_kelvin`: `raw_temp / 50.0`. -/
def get_mlx90614_converted_temperature_in_kelvin (raw_temp : Nat) : ℚ :=
  (raw_temp : ℚ) / 50.0

/-- `get_mlx90614_converted_temperature_in_celsius`:
`raw_temp / 50.0 - 273.15`. -/
def get_mlx90614_converted_temperature_in_celsius (raw_temp : Nat) : ℚ :=
  (raw_temp : ℚ) / 50.0 - 273.15

/-- `get_mlx90614_converted_temperature_in_fahrenheit`:
`(raw_temp / 50.0 - 273.15) * 1.8 + 32.0`. -/
def get_mlx90614_converted_temperature_in_fahrenheit (raw_temp : Nat) : ℚ :=
  ((raw_temp : ℚ) / 50.0 - 273.15) * 1.8 + 32.0

/-- The call `(*p_get_mlx90614_converted_temperature)(raw_temp)`: dispatch on
the selector held in the function-pointer field.  A selector outside the three
installed conversion functions corresponds to a pointer that was never set;
its value (0 here) is never relied upon by any theorem. -/
def mlx90614_converted_temperature_call (p raw_temp : Nat) : ℚ :=
  if p = MLX90614_Temp_K then get_mlx90614_converted_temperature_in_kelvin raw_temp
  else if p = MLX90614_Temp_C then get_mlx90614_converted_temperature_in_celsius raw_temp
  else if p = MLX90614_Temp_F then get_mlx90614_converted_temperature_in_fahrenheit raw_temp
  else 0

/-! ### Driver operations -/

/-- `init_mlx90614_module(hi2c, slave_address, temp_t)` from the source:
reject addresses above the maximum; for a non-zero address probe the bus and
on success store the address and its wire form; for a zero address keep the
current (factory-default) address and recompute its wire form; then store the
bus handle and dispatch on the temperature type, rejecting unrecognized
values.  Returns (status, new state, bus-transaction trace). -/
def init_mlx90614_module (bus : Bus) (s : DriverState)
    (hi2c slave_address temp_t : Nat) : Nat × DriverState × List BusOp :=
  if slave_address > MLX90614_MAX_VALID_SLAVE_ADDRESS_VALUE then
    (MLX90614_EC_ERR, s, [])
  else
    let step : DriverState × List BusOp ⊕ Nat × DriverState × List BusOp :=
      if slave_address ≠ 0 then
        let tmp_slave_addr_one_bit_left_shifted := (slave_address <<< 1) % 256
        if bus.isDeviceReady tmp_slave_addr_one_bit_left_shifted ≠ HAL_OK then
          Sum.inr (MLX90614_EC_NR, s,
            [BusOp.probeOp tmp_slave_addr_one_bit_left_shifted])
        else
          Sum.inl ({ s with
            mlx90614_slave_address := slave_address,
            mlx90614_slave_address_one_bit_left_shifted :=
              tmp_slave_addr_one_bit_left_shifted },
            [BusOp.probeOp tmp_slave_addr_one_bit_left_shifted])
      else
        Sum.inl ({ s with
          mlx90614_slave_address_one_bit_left_shifted :=
            (s.mlx90614_slave_address <<< 1) % 256 }, [])
    match step with
    | Sum.inr out => out
    | Sum.inl (s1, tr) =>
      let s2 := { s1 with p_hi2c := hi2c }
      if temp_t = MLX90614_Temp_K then
        (MLX90614_EC_OK, { s2 with
          p_get_mlx90614_converted_temperature := MLX90614_Temp_K,
          mlx90614_temperature_type := temp_t }, tr)
      else if temp_t = MLX90614_Temp_C then
        (MLX90614_EC_OK, { s2 with
          p_get_mlx90614_converted_temperature := MLX90614_Temp_C,
          mlx90614_temperature_type := temp_t }, tr)
      else if temp_t = MLX90614_Temp_F then
        (MLX90614_EC_OK, { s2 with
          p_get_mlx90614_converted_temperature := MLX90614_Temp_F,
          mlx90614_temperature_type := temp_t }, tr)
      else
        (MLX90614_EC_ERR, s2, tr)

/-- The body of the `for` loop of `find_mlx90614_slave_address`, probing
`current_slave_address` while it is below
`MLX90614_MAX_VALID_SLAVE_ADDRESS_VALUE_PLUS_ONE`; `fuel` is the number of
remaining iterations (`0x7F - current_slave_address`), making the loop
structurally recursive. -/
def find_mlx90614_slave_address_loop (bus : Bus) (s : DriverState) :
    Nat → Nat → Nat × DriverState × List BusOp
  | _, 0 => (MLX90614_EC_NR, s, [])
  | current_slave_address, fuel + 1 =>
    let current_shifted := (current_slave_address <<< 1) % 256
    if bus.isDeviceReady current_shifted = HAL_OK then
      (MLX90614_EC_OK,
        { s with
          mlx90614_slave_address := current_slave_address,
          mlx90614_slave_address_one_bit_left_shifted := current_shifted },
        [BusOp.probeOp current_shifted])
    else
      let rest :=
        find_mlx90614_slave_address_loop bus s (current_slave_address + 1) fuel
      (rest.1, rest.2.1, BusOp.probeOp current_shifted :: rest.2.2)

/-- `find_mlx90614_slave_address()` from the source: linear probe from
`MLX90614_MIN_VALID_SLAVE_ADDRESS_VALUE` (3) up to but excluding
`MLX90614_MAX_VALID_SLAVE_ADDRESS_VALUE_PLUS_ONE` (0x7F), i.e. 124
iterations. -/
def find_mlx90614_slave_address (bus : Bus) (s : DriverState) :
    Nat × DriverState × List BusOp :=
  find_mlx90614_slave_address_loop bus s MLX90614_MIN_VALID_SLAVE_ADDRESS_VALUE
    (MLX90614_MAX_VALID_SLAVE_ADDRESS_VALUE_PLUS_ONE -
      MLX90614_MIN_VALID_SLAVE_ADDRESS_VALUE)

/-- `set_mlx90614_module_slave_address(slave_address)` from the source:
reject addresses outside `[0x03, 0x7E]`; probe the bus at the shifted
address; on success store the address and its wire form. -/
def set_mlx90614_module_slave_address (bus : Bus) (s : DriverState)
    (slave_address : Nat) : Nat × DriverState × List BusOp :=
  if slave_address > MLX90614_MAX_VALID_SLAVE_ADDRESS_VALUE ∨
      slave_address < MLX90614_MIN_VALID_SLAVE_ADDRESS_VALUE then
    (MLX90614_EC_ERR, s, [])
  else
    let tmp_slave_addr_one_bit_left_shifted := (slave_address <<< 1) % 256
    if bus.isDeviceReady tmp_slave_addr_one_bit_left_shifted ≠ HAL_OK then
      (MLX90614_EC_NR, s, [BusOp.probeOp tmp_slave_addr_one_bit_left_shifted])
    else
      (MLX90614_EC_OK,
        { s with
          mlx90614_slave_address := slave_address,
          mlx90614_slave_address_one_bit_left_shifted :=
            tmp_slave_addr_one_bit_left_shifted },
        [BusOp.probeOp tmp_slave_addr_one_bit_left_shifted])

/-- The 4-byte I2C write frame built by `set_mlx90614_device_slave_address`
for both the erase and the write transaction: EEPROM cell address, the two
payload bytes, and the PEC byte computed by chaining `calculate_pec` from
`MLX90614_PEC_RESET_VALUE` over the wire address byte, the cell address and
the two payload bytes (exactly the four `calculate_pec` calls of the
source). -/
def mlx90614_eeprom_write_frame (wire_address payload_lo payload_hi : Nat) :
    List Nat :=
  let pec0 := calculate_pec MLX90614_PEC_RESET_VALUE wire_address
  let pec1 := calculate_pec pec0 MLX90614_SLAVE_ADDRESS_EEPROM_ADDRESS
  let pec2 := calculate_pec pec1 payload_lo
  let pec3 := calculate_pec pec2 payload_hi
  [MLX90614_SLAVE_ADDRESS_EEPROM_ADDRESS, payload_lo, payload_hi, pec3]

/-- `set_mlx90614_device_slave_address(new_slave_address)` from the source:
validate the range; STEP 1 read the 2-byte EEPROM slave-address cell (to
preserve its most significant byte); STEP 2 transmit the erase frame (zero
payload, fresh PEC), abort on failure, then settle-delay; STEP 3 transmit the
write frame (new address low byte, preserved high byte, fresh PEC), abort on
failure, then settle-delay; finally update the believed address
optimistically. -/
def set_mlx90614_device_slave_address (bus : Bus) (s : DriverState)
    (new_slave_address : Nat) : Nat × DriverState × List BusOp :=
  if new_slave_address > MLX90614_MAX_VALID_SLAVE_ADDRESS_VALUE ∨
      new_slave_address < MLX90614_MIN_VALID_SLAVE_ADDRESS_VALUE then
    (MLX90614_EC_ERR, s, [])
  else
    let wire := s.mlx90614_slave_address_one_bit_left_shifted
    let received_i2cdata := bus.memRead wire MLX90614_SLAVE_ADDRESS_EEPROM_ADDRESS
    let ret1 := HAL_ret_handler received_i2cdata.1
    let tr1 := [BusOp.readOp wire MLX90614_SLAVE_ADDRESS_EEPROM_ADDRESS]
    if ret1 ≠ HAL_OK then (ret1, s, tr1)
    else
      let erase_frame := mlx90614_eeprom_write_frame wire
        MLX90614_SLAVE_ADDRESS_EEPROM_ERASE_VALUE
        MLX90614_SLAVE_ADDRESS_EEPROM_ERASE_VALUE
      let ret2 := HAL_ret_handler (bus.transmit wire erase_frame)
      let tr2 := tr1 ++ [BusOp.writeOp wire erase_frame]
      if ret2 ≠ HAL_OK then (ret2, s, tr2)
      else
        let tr2d := tr2 ++ [BusOp.delayOp MLX90614_ERASE_OR_WRITE_CELL_TIME]
        let write_frame := mlx90614_eeprom_write_frame wire new_slave_address
          (received_i2cdata.2.2 % 256)
        let ret3 := HAL_ret_handler (bus.transmit wire write_frame)
        let tr3 := tr2d ++ [BusOp.writeOp wire write_frame]
        if ret3 ≠ HAL_OK then (ret3, s, tr3)
        else
          (MLX90614_EC_OK,
            { s with
              mlx90614_slave_address := new_slave_address,
              mlx90614_slave_address_one_bit_left_shifted :=
                (new_slave_address <<< 1) % 256 },
            tr3 ++ [BusOp.delayOp MLX90614_ERASE_OR_WRITE_CELL_TIME])

/-- `get_mlx90614_ambient_temperature(dst)` from the source: read 2 bytes
from RAM address `0x06`, map the HAL status, reassemble little-endian,
reject values above `0x7FFF` (device error flag), else convert through the
installed conversion function.  The second component models `*dst`: `none`
means the output location was not written, `some v` that `v` was stored. -/
def get_mlx90614_ambient_temperature (bus : Bus) (s : DriverState) :
    Nat × Option ℚ × List BusOp :=
  let wire := s.mlx90614_slave_address_one_bit_left_shifted
  let i2cdata := bus.memRead wire MLX90614_TA_RAM_ADDRESS
  let ret := HAL_ret_handler i2cdata.1
  let tr := [BusOp.readOp wire MLX90614_TA_RAM_ADDRESS]
  if ret ≠ HAL_OK then (ret, none, tr)
  else
    let raw_temp := ((i2cdata.2.2 % 256) <<< 8) ||| (i2cdata.2.1 % 256)
    if raw_temp > 0x7FFF then (MLX90614_EC_ERR, none, tr)
    else
      (MLX90614_EC_OK,
        some (mlx90614_converted_temperature_call
          s.p_get_mlx90614_converted_temperature raw_temp), tr)

/-- `get_mlx90614_object1_temperature(dst)` from the source: identical to the
ambient read but at RAM address `0x07`. -/
def get_mlx90614_object1_temperature (bus : Bus) (s : DriverState) :
    Nat × Option ℚ × List BusOp :=
  let wire := s.mlx90614_slave_address_one_bit_left_shifted
  let i2cdata := bus.memRead wire MLX90614_TOBJ1_RAM_ADDRESS
  let ret := HAL_ret_handler i2cdata.1
  let tr := [BusOp.readOp wire MLX90614_TOBJ1_RAM_ADDRESS]
  if ret ≠ HAL_OK then (ret, none, tr)
  else
    let raw_temp := ((i2cdata.2.2 % 256) <<< 8) ||| (i2cdata.2.1 % 256)
    if raw_temp > 0x7FFF then (MLX90614_EC_ERR, none, tr)
    else
      (MLX90614_EC_OK,
        some (mlx90614_converted_temperature_call
          s.p_get_mlx90614_converted_temperature raw_temp), tr)

/-- `get_mlx90614_object2_temperature(dst)` from the source: identical to the
ambient read but at RAM address `0x08`. -/
def get_mlx90614_object2_temperature (bus : Bus) (s : DriverState) :
    Nat × Option ℚ × List BusOp :=
  let wire := s.mlx90614_slave_address_one_bit_left_shifted
  let i2cdata := bus.memRead wire MLX90614_TOBJ2_RAM_ADDRESS
  let ret := HAL_ret_handler i2cdata.1
  let tr := [BusOp.readOp wire MLX90614_TOBJ2_RAM_ADDRESS]
  if ret ≠ HAL_OK then (ret, none, tr)
  else
    let raw_temp := ((i2cdata.2.2 % 256) <<< 8) ||| (i2cdata.2.1 % 256)
    if raw_temp > 0x7FFF then (MLX90614_EC_ERR, none, tr)
    else
      (MLX90614_EC_OK,
        some (mlx90614_converted_temperature_call
          s.p_get_mlx90614_converted_temperature raw_temp), tr)

/-! ### Concrete fixtures for witnesses and counterexamples -/

/-- A bus on which no device answers a probe, EEPROM reads succeed returning
low byte `0x5A` and high byte `0xBE`, and transmissions succeed. -/
def busNoProbe : Bus where
  isDeviceReady := fun _ => HAL_TIMEOUT
  memRead := fun _ _ => (HAL_OK, 0x5A, 0xBE)
  transmit := fun _ _ => HAL_OK

/-- A bus on which exactly the wire address `180` (slave address `90 = 0x5A`)
answers a probe, reads succeed returning bytes `0x00, 0x80` (an error-flagged
raw sample `0x8000`), and transmissions succeed. -/
def busDeviceAt90 : Bus where
  isDeviceReady := fun wire => if wire = 180 then HAL_OK else HAL_TIMEOUT
  memRead := fun _ _ => (HAL_OK, 0x00, 0x80)
  transmit := fun _ _ => HAL_OK

/-- A driver state holding the factory-default address `0x5A`, its wire form
`0xB4`, and the Celsius conversion selected. -/
def stDefault : DriverState where
  p_hi2c := 0
  mlx90614_slave_address := 0x5A
  mlx90614_slave_address_one_bit_left_shifted := 0xB4
  mlx90614_temperature_type := MLX90614_Temp_C
  p_get_mlx90614_converted_temperature := MLX90614_Temp_C

/-- A bus on which every probe answers ready, reads succeed returning bytes
`0x00, 0x00`, and transmissions succeed. -/
def busAlwaysReady : Bus where
  isDeviceReady := fun _ => HAL_OK
  memRead := fun _ _ => (HAL_OK, 0x00, 0x00)
  transmit := fun _ _ => HAL_OK

/-- Recognizer for read transactions in a bus trace. -/
def BusOp.isReadOp : BusOp → Bool
  | BusOp.readOp _ _ => true
  | _ => false

/-- A driver state holding a believed address `0x10` different from `0x5A`,
with Kelvin selected. -/
def stOther : DriverState where
  p_hi2c := 0
  mlx90614_slave_address := 0x10
  mlx90614_slave_address_one_bit_left_shifted := 0x20
  mlx90614_temperature_type := MLX90614_Temp_K
  p_get_mlx90614_converted_temperature := MLX90614_Temp_K

/-! ### Claims -/

/-- C1: the checksum byte appended to every non-volatile write transaction
equals the reference CRC-8 (polynomial 0x07, MSB-first, no final inversion)
of the ordered byte sequence (wire address byte, register address byte,
payload bytes): chaining the driver's `calculate_pec` from the reset value 0
over any byte sequence computes exactly the reference CRC-8, and the 4-byte
write frame built by `set_mlx90614_device_slave_address` carries as its final
byte the reference CRC-8 of (wire address, EEPROM cell address, payload low,
payload high), bit-exactly. -/
theorem calculate_pec_is_reference_crc8 (bytes : List Nat)
    (hb : ∀ b ∈ bytes, b < 256) (wire payload_lo payload_hi : Nat)
    (hw : wire < 256) (hlo : payload_lo < 256) (hhi : payload_hi < 256) :
    List.foldl calculate_pec MLX90614_PEC_RESET_VALUE bytes = crc8_spec bytes ∧
    mlx90614_eeprom_write_frame wire payload_lo payload_hi =
      [MLX90614_SLAVE_ADDRESS_EEPROM_ADDRESS, payload_lo, payload_hi,
        crc8_spec [wire, MLX90614_SLAVE_ADDRESS_EEPROM_ADDRESS, payload_lo,
          payload_hi]] := by
  constructor
  · exact foldl_calculate_pec_eq_crc8 bytes hb MLX90614_PEC_RESET_VALUE
      (by norm_num [MLX90614_PEC_RESET_VALUE])
  · have h4 : ∀ b ∈ [wire, MLX90614_SLAVE_ADDRESS_EEPROM_ADDRESS, payload_lo,
        payload_hi], b < 256 := by
      intro b hb'
      simp only [List.mem_cons, List.not_mem_nil, or_false,
        MLX90614_SLAVE_ADDRESS_EEPROM_ADDRESS] at hb'
      rcases hb' with h | h | h | h <;> omega
    have hfold := foldl_calculate_pec_eq_crc8
      [wire, MLX90614_SLAVE_ADDRESS_EEPROM_ADDRESS, payload_lo, payload_hi]
      h4 MLX90614_PEC_RESET_VALUE (by norm_num [MLX90614_PEC_RESET_VALUE])
    simp only [List.foldl_cons, List.foldl_nil] at hfold
    simp only [mlx90614_eeprom_write_frame, crc8_spec, List.foldl_cons,
      List.foldl_nil, hfold]

/-- Witness for C1 at concrete inputs: the standard CRC-8/0x07 test vector
`"123456789"` has checksum `0xF4`, and a concrete write frame carries the
reference CRC-8 of its transmitted byte sequence. -/
theorem calculate_pec_is_reference_crc8_witness :
    (∀ b ∈ [0x31, 0x32, 0x33, 0x34, 0x35, 0x36, 0x37, 0x38, 0x39],
      b < 256) ∧
    List.foldl calculate_pec MLX90614_PEC_RESET_VALUE
      [0x31, 0x32, 0x33, 0x34, 0x35, 0x36, 0x37, 0x38, 0x39] =
      crc8_spec [0x31, 0x32, 0x33, 0x34, 0x35, 0x36, 0x37, 0x38, 0x39] ∧
    crc8_spec [0x31, 0x32, 0x33, 0x34, 0x35, 0x36, 0x37, 0x38, 0x39] = 0xF4 ∧
    mlx90614_eeprom_write_frame 0xB4 0x3C 0xBE =
      [MLX90614_SLAVE_ADDRESS_EEPROM_ADDRESS, 0x3C, 0xBE,
        crc8_spec [0xB4, MLX90614_SLAVE_ADDRESS_EEPROM_ADDRESS, 0x3C, 0xBE]] :=
  ⟨by decide,
    (calculate_pec_is_reference_crc8
      [0x31, 0x32, 0x33, 0x34, 0x35, 0x36, 0x37, 0x38, 0x39] (by decide)
      0xB4 0x3C 0xBE (by decide) (by decide) (by decide)).1,
    by decide,
    (calculate_pec_is_reference_crc8
      [0x31, 0x32, 0x33, 0x34, 0x35, 0x36, 0x37, 0x38, 0x39] (by decide)
      0xB4 0x3C 0xBE (by decide) (by decide) (by decide)).2⟩

/-- C2: for every in-range new address, `set_mlx90614_device_slave_address`
performs exactly the ordered sequence read-cell, erase-transmit (zero payload,
fresh PEC), settle delay, write-transmit (new address low byte, the high byte
obtained by the initial read, fresh PEC), settle delay, optimistic state
update; each transport result is checked independently and the first failing
transport call returns its mapped status with no later transaction issued —
in particular a failing erase prevents the write from ever being issued. -/
theorem set_mlx90614_device_slave_address_sequence (bus : Bus)
    (s : DriverState) (a : Nat)
    (hmin : MLX90614_MIN_VALID_SLAVE_ADDRESS_VALUE ≤ a)
    (hmax : a ≤ MLX90614_MAX_VALID_SLAVE_ADDRESS_VALUE) :
    (HAL_ret_handler (bus.memRead s.mlx90614_slave_address_one_bit_left_shifted
        MLX90614_SLAVE_ADDRESS_EEPROM_ADDRESS).1 ≠ MLX90614_EC_OK →
      set_mlx90614_device_slave_address bus s a =
        (HAL_ret_handler
          (bus.memRead s.mlx90614_slave_address_one_bit_left_shifted
            MLX90614_SLAVE_ADDRESS_EEPROM_ADDRESS).1, s,
          [BusOp.readOp s.mlx90614_slave_address_one_bit_left_shifted
            MLX90614_SLAVE_ADDRESS_EEPROM_ADDRESS])) ∧
    (HAL_ret_handler (bus.memRead s.mlx90614_slave_address_one_bit_left_shifted
        MLX90614_SLAVE_ADDRESS_EEPROM_ADDRESS).1 = MLX90614_EC_OK →
      HAL_ret_handler (bus.transmit s.mlx90614_slave_address_one_bit_left_shifted
        (mlx90614_eeprom_write_frame s.mlx90614_slave_address_one_bit_left_shifted
          MLX90614_SLAVE_ADDRESS_EEPROM_ERASE_VALUE
          MLX90614_SLAVE_ADDRESS_EEPROM_ERASE_VALUE)) ≠ MLX90614_EC_OK →
      set_mlx90614_device_slave_address bus s a =
        (HAL_ret_handler
          (bus.transmit s.mlx90614_slave_address_one_bit_left_shifted
            (mlx90614_eeprom_write_frame
              s.mlx90614_slave_address_one_bit_left_shifted
              MLX90614_SLAVE_ADDRESS_EEPROM_ERASE_VALUE
              MLX90614_SLAVE_ADDRESS_EEPROM_ERASE_VALUE)), s,
          [BusOp.readOp s.mlx90614_slave_address_one_bit_left_shifted
            MLX90614_SLAVE_ADDRESS_EEPROM_ADDRESS,
           BusOp.writeOp s.mlx90614_slave_address_one_bit_left_shifted
            (mlx90614_eeprom_write_frame
              s.mlx90614_slave_address_one_bit_left_shifted
              MLX90614_SLAVE_ADDRESS_EEPROM_ERASE_VALUE
              MLX90614_SLAVE_ADDRESS_EEPROM_ERASE_VALUE)])) ∧
    (HAL_ret_handler (bus.memRead s.mlx90614_slave_address_one_bit_left_shifted
        MLX90614_SLAVE_ADDRESS_EEPROM_ADDRESS).1 = MLX90614_EC_OK →
      HAL_ret_handler (bus.transmit s.mlx90614_slave_address_one_bit_left_shifted
        (mlx90614_eeprom_write_frame s.mlx90614_slave_address_one_bit_left_shifted
          MLX90614_SLAVE_ADDRESS_EEPROM_ERASE_VALUE
          MLX90614_SLAVE_ADDRESS_EEPROM_ERASE_VALUE)) = MLX90614_EC_OK →
      HAL_ret_handler (bus.transmit s.mlx90614_slave_address_one_bit_left_shifted
        (mlx90614_eeprom_write_frame s.mlx90614_slave_address_one_bit_left_shifted
          a ((bus.memRead s.mlx90614_slave_address_one_bit_left_shifted
            MLX90614_SLAVE_ADDRESS_EEPROM_ADDRESS).2.2 % 256))) ≠
        MLX90614_EC_OK →
      set_mlx90614_device_slave_address bus s a =
        (HAL_ret_handler
          (bus.transmit s.mlx90614_slave_address_one_bit_left_shifted
            (mlx90614_eeprom_write_frame
              s.mlx90614_slave_address_one_bit_left_shifted a
              ((bus.memRead s.mlx90614_slave_address_one_bit_left_shifted
                MLX90614_SLAVE_ADDRESS_EEPROM_ADDRESS).2.2 % 256))), s,
          [BusOp.readOp s.mlx90614_slave_address_one_bit_left_shifted
            MLX90614_SLAVE_ADDRESS_EEPROM_ADDRESS,
           BusOp.writeOp s.mlx90614_slave_address_one_bit_left_shifted
            (mlx90614_eeprom_write_frame
              s.mlx90614_slave_address_one_bit_left_shifted
              MLX90614_SLAVE_ADDRESS_EEPROM_ERASE_VALUE
              MLX90614_SLAVE_ADDRESS_EEPROM_ERASE_VALUE),
           BusOp.delayOp MLX90614_ERASE_OR_WRITE_CELL_TIME,
           BusOp.writeOp s.mlx90614_slave_address_one_bit_left_shifted
            (mlx90614_eeprom_write_frame
              s.mlx90614_slave_address_one_bit_left_shifted a
              ((bus.memRead s.mlx90614_slave_address_one_bit_left_shifted
                MLX90614_SLAVE_ADDRESS_EEPROM_ADDRESS).2.2 % 256))])) ∧
    (HAL_ret_handler (bus.memRead s.mlx90614_slave_address_one_bit_left_shifted
        MLX90614_SLAVE_ADDRESS_EEPROM_ADDRESS).1 = MLX90614_EC_OK →
      HAL_ret_handler (bus.transmit s.mlx90614_slave_address_one_bit_left_shifted
        (mlx90614_eeprom_write_frame s.mlx90614_slave_address_one_bit_left_shifted
          MLX90614_SLAVE_ADDRESS_EEPROM_ERASE_VALUE
          MLX90614_SLAVE_ADDRESS_EEPROM_ERASE_VALUE)) = MLX90614_EC_OK →
      HAL_ret_handler (bus.transmit s.mlx90614_slave_address_one_bit_left_shifted
        (mlx90614_eeprom_write_frame s.mlx90614_slave_address_one_bit_left_shifted
          a ((bus.memRead s.mlx90614_slave_address_one_bit_left_shifted
            MLX90614_SLAVE_ADDRESS_EEPROM_ADDRESS).2.2 % 256))) =
        MLX90614_EC_OK →
      set_mlx90614_device_slave_address bus s a =
        (MLX90614_EC_OK,
          { s with
            mlx90614_slave_address := a,
            mlx90614_slave_address_one_bit_left_shifted := (a <<< 1) % 256 },
          [BusOp.readOp s.mlx90614_slave_address_one_bit_left_shifted
            MLX90614_SLAVE_ADDRESS_EEPROM_ADDRESS,
           BusOp.writeOp s.mlx90614_slave_address_one_bit_left_shifted
            (mlx90614_eeprom_write_frame
              s.mlx90614_slave_address_one_bit_left_shifted
              MLX90614_SLAVE_ADDRESS_EEPROM_ERASE_VALUE
              MLX90614_SLAVE_ADDRESS_EEPROM_ERASE_VALUE),
           BusOp.delayOp MLX90614_ERASE_OR_WRITE_CELL_TIME,
           BusOp.writeOp s.mlx90614_slave_address_one_bit_left_shifted
            (mlx90614_eeprom_write_frame
              s.mlx90614_slave_address_one_bit_left_shifted a
              ((bus.memRead s.mlx90614_slave_address_one_bit_left_shifted
                MLX90614_SLAVE_ADDRESS_EEPROM_ADDRESS).2.2 % 256)),
           BusOp.delayOp MLX90614_ERASE_OR_WRITE_CELL_TIME])) := by
  have hrange : ¬(a > MLX90614_MAX_VALID_SLAVE_ADDRESS_VALUE ∨
      a < MLX90614_MIN_VALID_SLAVE_ADDRESS_VALUE) := by
    push_neg
    exact ⟨hmax, hmin⟩
  refine ⟨fun h1 => ?_, fun h1 h2 => ?_, fun h1 h2 h3 => ?_, fun h1 h2 h3 => ?_⟩
  · simp only [set_mlx90614_device_slave_address, if_neg hrange, MLX90614_EC_OK,
      HAL_OK] at h1 ⊢
    simp [h1]
  · simp only [set_mlx90614_device_slave_address, if_neg hrange, MLX90614_EC_OK,
      HAL_OK] at h1 h2 ⊢
    simp [h1, h2]
  · simp only [set_mlx90614_device_slave_address, if_neg hrange, MLX90614_EC_OK,
      HAL_OK] at h1 h2 h3 ⊢
    simp [h1, h2, h3]
  · simp only [set_mlx90614_device_slave_address, if_neg hrange, MLX90614_EC_OK,
      HAL_OK] at h1 h2 h3 ⊢
    simp [h1, h2, h3]

/-- Witness for C2: on a bus where the read and both transmissions succeed,
rewriting the address to `0x3C` from the default state performs the full
read / erase / delay / write / delay sequence (with the PEC bytes `0xAF` and
`0x99`) and optimistically updates the believed address. -/
theorem set_mlx90614_device_slave_address_sequence_witness :
    MLX90614_MIN_VALID_SLAVE_ADDRESS_VALUE ≤ 0x3C ∧
    0x3C ≤ MLX90614_MAX_VALID_SLAVE_ADDRESS_VALUE ∧
    set_mlx90614_device_slave_address busNoProbe stDefault 0x3C =
      (MLX90614_EC_OK,
        { p_hi2c := 0, mlx90614_slave_address := 0x3C,
          mlx90614_slave_address_one_bit_left_shifted := 0x78,
          mlx90614_temperature_type := MLX90614_Temp_C,
          p_get_mlx90614_converted_temperature := MLX90614_Temp_C },
        [BusOp.readOp 0xB4 0x2E, BusOp.writeOp 0xB4 [0x2E, 0, 0, 0xAF],
          BusOp.delayOp 1000, BusOp.writeOp 0xB4 [0x2E, 0x3C, 0xBE, 0x99],
          BusOp.delayOp 1000]) := by
  refine ⟨by decide, by decide, ?_⟩
  have h := (set_mlx90614_device_slave_address_sequence busNoProbe stDefault
    0x3C (by decide) (by decide)).2.2.2 (by decide) (by decide) (by decide)
  rw [h]
  decide

lemma find_loop_no_responder (bus : Bus) (s : DriverState) :
    ∀ fuel current,
      (∀ j, current ≤ j → j < current + fuel →
        bus.isDeviceReady ((j <<< 1) % 256) ≠ HAL_OK) →
      find_mlx90614_slave_address_loop bus s current fuel =
        (MLX90614_EC_NR, s,
          (List.range' current fuel).map
            (fun j => BusOp.probeOp ((j <<< 1) % 256))) := by
  intro fuel
  induction fuel with
  | zero => intro current _; rfl
  | succ n ih =>
    intro current h
    have hcur : ¬(bus.isDeviceReady ((current <<< 1) % 256) = HAL_OK) :=
      h current le_rfl (by omega)
    have hrest := ih (current + 1) (fun j hj1 hj2 => h j (by omega) (by omega))
    simp only [find_mlx90614_slave_address_loop, if_neg hcur, hrest,
      List.range', List.map_cons]

lemma find_loop_first_responder (bus : Bus) (s : DriverState) :
    ∀ fuel current k, current ≤ k → k < current + fuel →
      bus.isDeviceReady ((k <<< 1) % 256) = HAL_OK →
      (∀ j, current ≤ j → j < k →
        bus.isDeviceReady ((j <<< 1) % 256) ≠ HAL_OK) →
      find_mlx90614_slave_address_loop bus s current fuel =
        (MLX90614_EC_OK,
          { s with
            mlx90614_slave_address := k,
            mlx90614_slave_address_one_bit_left_shifted := (k <<< 1) % 256 },
          (List.range' current (k - current + 1)).map
            (fun j => BusOp.probeOp ((j <<< 1) % 256))) := by
  intro fuel
  induction fuel with
  | zero => intro current k h1 h2 _ _; omega
  | succ n ih =>
    intro current k h1 h2 hk hbefore
    by_cases hc : bus.isDeviceReady ((current <<< 1) % 256) = HAL_OK
    · have hck : current = k := by
        by_contra hne
        exact hbefore current le_rfl (by omega) hc
      subst hck
      simp only [find_mlx90614_slave_address_loop, if_pos hc, Nat.sub_self,
        List.range', List.map_cons, List.map_nil]
    · have hck : current < k := by
        rcases Nat.eq_or_lt_of_le h1 with he | hl
        · exact absurd (he ▸ hk) hc
        · exact hl
      have hrest := ih (current + 1) k (by omega) (by omega) hk
        (fun j hj1 hj2 => hbefore j (by omega) hj2)
      have hsplit : List.range' current (k - current + 1) =
          current :: List.range' (current + 1) (k - (current + 1) + 1) := by
        have hlen : k - current + 1 = (k - (current + 1) + 1) + 1 := by omega
        rw [hlen]
        rfl
      simp only [find_mlx90614_slave_address_loop, if_neg hc, hrest, hsplit,
        List.map_cons]

/-- C3: `find_mlx90614_slave_address` probes every address of the valid range
`[0x03, 0x7E]` from lowest to highest (the universal any-device address 0 is
excluded, as is everything below the minimum), stopping at the first address
that answers ready: on a bus where exactly one in-range address `k` answers
ready it probes `3..k`, sets the believed address to exactly `k` and returns
success; if no in-range address answers it probes the whole range, returns
`MLX90614_EC_NR` and leaves the prior state unchanged. -/
theorem find_mlx90614_slave_address_discovery (bus : Bus) (s : DriverState) :
    (∀ k, MLX90614_MIN_VALID_SLAVE_ADDRESS_VALUE ≤ k →
      k ≤ MLX90614_MAX_VALID_SLAVE_ADDRESS_VALUE →
      bus.isDeviceReady ((k <<< 1) % 256) = HAL_OK →
      (∀ j, j < MLX90614_MAX_VALID_SLAVE_ADDRESS_VALUE_PLUS_ONE →
        MLX90614_MIN_VALID_SLAVE_ADDRESS_VALUE ≤ j →
        bus.isDeviceReady ((j <<< 1) % 256) = HAL_OK → j = k) →
      find_mlx90614_slave_address bus s =
        (MLX90614_EC_OK,
          { s with
            mlx90614_slave_address := k,
            mlx90614_slave_address_one_bit_left_shifted := (k <<< 1) % 256 },
          (List.range' MLX90614_MIN_VALID_SLAVE_ADDRESS_VALUE
            (k - MLX90614_MIN_VALID_SLAVE_ADDRESS_VALUE + 1)).map
            (fun j => BusOp.probeOp ((j <<< 1) % 256)))) ∧
    ((∀ j, j < MLX90614_MAX_VALID_SLAVE_ADDRESS_VALUE_PLUS_ONE →
      MLX90614_MIN_VALID_SLAVE_ADDRESS_VALUE ≤ j →
      bus.isDeviceReady ((j <<< 1) % 256) ≠ HAL_OK) →
      find_mlx90614_slave_address bus s =
        (MLX90614_EC_NR, s,
          (List.range' MLX90614_MIN_VALID_SLAVE_ADDRESS_VALUE
            (MLX90614_MAX_VALID_SLAVE_ADDRESS_VALUE_PLUS_ONE -
              MLX90614_MIN_VALID_SLAVE_ADDRESS_VALUE)).map
            (fun j => BusOp.probeOp ((j <<< 1) % 256)))) := by
  simp only [MLX90614_MIN_VALID_SLAVE_ADDRESS_VALUE,
    MLX90614_MAX_VALID_SLAVE_ADDRESS_VALUE,
    MLX90614_MAX_VALID_SLAVE_ADDRESS_VALUE_PLUS_ONE]
  constructor
  · intro k hk1 hk2 hready huniq
    have hbefore : ∀ j, 3 ≤ j → j < k →
        bus.isDeviceReady ((j <<< 1) % 256) ≠ HAL_OK := by
      intro j hj1 hj2 hr
      have := huniq j (by omega) hj1 hr
      omega
    exact find_loop_first_responder bus s 124 3 k hk1 (by omega) hready hbefore
  · intro hnone
    exact find_loop_no_responder bus s 124 3
      (fun j hj1 hj2 => hnone j (by omega) hj1)

/-- Witness for C3 at concrete inputs: on `busDeviceAt90` (only slave address
`90` answers) discovery from a state believing `0x10` probes `3..90`, sets
the believed address to `90` and succeeds; on `busNoProbe` (nobody answers)
it probes the whole range `3..126`, fails with `MLX90614_EC_NR` and leaves
the state unchanged. -/
theorem find_mlx90614_slave_address_discovery_witness :
    busDeviceAt90.isDeviceReady ((90 <<< 1) % 256) = HAL_OK ∧
    (find_mlx90614_slave_address busDeviceAt90 stOther).1 = MLX90614_EC_OK ∧
    (find_mlx90614_slave_address busDeviceAt90 stOther).2.1.mlx90614_slave_address
      = 90 ∧
    (find_mlx90614_slave_address busNoProbe stOther).1 = MLX90614_EC_NR ∧
    (find_mlx90614_slave_address busNoProbe stOther).2.1 = stOther := by
  have hfound := (find_mlx90614_slave_address_discovery busDeviceAt90 stOther).1
    90 (by decide) (by decide) (by decide)
    (by decide)
  have hnone := (find_mlx90614_slave_address_discovery busNoProbe stOther).2
    (by decide)
  refine ⟨by decide, ?_, ?_, ?_, ?_⟩
  · rw [hfound]
  · rw [hfound]
  · rw [hnone]
  · rw [hnone]

/-- C4: `set_mlx90614_module_slave_address` is atomic with respect to
failure: an address outside `[0x03, 0x7E]` yields `MLX90614_EC_ERR`
(invalid argument) with the state — believed address and wire-shifted form —
untouched and no bus traffic; an in-range address whose probe does not answer
`HAL_OK` yields `MLX90614_EC_NR` with the state untouched; only a successful
probe overwrites the state with the new address and its wire form. -/
theorem set_mlx90614_module_slave_address_atomic (bus : Bus) (s : DriverState)
    (a : Nat) :
    ((a > MLX90614_MAX_VALID_SLAVE_ADDRESS_VALUE ∨
        a < MLX90614_MIN_VALID_SLAVE_ADDRESS_VALUE) →
      set_mlx90614_module_slave_address bus s a = (MLX90614_EC_ERR, s, [])) ∧
    (MLX90614_MIN_VALID_SLAVE_ADDRESS_VALUE ≤ a →
      a ≤ MLX90614_MAX_VALID_SLAVE_ADDRESS_VALUE →
      bus.isDeviceReady ((a <<< 1) % 256) ≠ HAL_OK →
      set_mlx90614_module_slave_address bus s a =
        (MLX90614_EC_NR, s, [BusOp.probeOp ((a <<< 1) % 256)])) ∧
    (MLX90614_MIN_VALID_SLAVE_ADDRESS_VALUE ≤ a →
      a ≤ MLX90614_MAX_VALID_SLAVE_ADDRESS_VALUE →
      bus.isDeviceReady ((a <<< 1) % 256) = HAL_OK →
      set_mlx90614_module_slave_address bus s a =
        (MLX90614_EC_OK,
          { s with
            mlx90614_slave_address := a,
            mlx90614_slave_address_one_bit_left_shifted := (a <<< 1) % 256 },
          [BusOp.probeOp ((a <<< 1) % 256)])) := by
  refine ⟨fun h => ?_, fun h1 h2 h3 => ?_, fun h1 h2 h3 => ?_⟩
  · simp only [set_mlx90614_module_slave_address, if_pos h]
  · have hrange : ¬(a > MLX90614_MAX_VALID_SLAVE_ADDRESS_VALUE ∨
        a < MLX90614_MIN_VALID_SLAVE_ADDRESS_VALUE) := by
      push_neg
      exact ⟨h2, h1⟩
    simp only [set_mlx90614_module_slave_address, if_neg hrange]
    simp [h3]
  · have hrange : ¬(a > MLX90614_MAX_VALID_SLAVE_ADDRESS_VALUE ∨
        a < MLX90614_MIN_VALID_SLAVE_ADDRESS_VALUE) := by
      push_neg
      exact ⟨h2, h1⟩
    simp only [set_mlx90614_module_slave_address, if_neg hrange]
    simp [h3]

/-- Witness for C4 at concrete inputs: address `200` is rejected with
`MLX90614_EC_ERR` leaving the state unchanged; in-range address `90` fails
with `MLX90614_EC_NR` on a silent bus leaving the state unchanged, and
succeeds on `busDeviceAt90`, overwriting the state. -/
theorem set_mlx90614_module_slave_address_atomic_witness :
    (200 > MLX90614_MAX_VALID_SLAVE_ADDRESS_VALUE ∨
      200 < MLX90614_MIN_VALID_SLAVE_ADDRESS_VALUE) ∧
    set_mlx90614_module_slave_address busNoProbe stOther 200 =
      (MLX90614_EC_ERR, stOther, []) ∧
    set_mlx90614_module_slave_address busNoProbe stOther 90 =
      (MLX90614_EC_NR, stOther, [BusOp.probeOp 180]) ∧
    set_mlx90614_module_slave_address busDeviceAt90 stOther 90 =
      (MLX90614_EC_OK,
        { p_hi2c := 0, mlx90614_slave_address := 90,
          mlx90614_slave_address_one_bit_left_shifted := 180,
          mlx90614_temperature_type := MLX90614_Temp_K,
          p_get_mlx90614_converted_temperature := MLX90614_Temp_K },
        [BusOp.probeOp 180]) := by
  refine ⟨by decide, ?_, ?_, ?_⟩
  · exact (set_mlx90614_module_slave_address_atomic busNoProbe stOther 200).1
      (by decide)
  · have h := (set_mlx90614_module_slave_address_atomic busNoProbe stOther
      90).2.1 (by decide) (by decide) (by decide)
    rw [h]
    decide
  · have h := (set_mlx90614_module_slave_address_atomic busDeviceAt90 stOther
      90).2.2 (by decide) (by decide) (by decide)
    rw [h]
    decide

/-- Counterexample to C5: on `busNoProbe` the EEPROM slave-address cell
always reads back low byte `0x5A`, which never matches the requested new
address `0x3C`; yet `set_mlx90614_device_slave_address` returns
`MLX90614_EC_OK` (not the `Failed` status `MLX90614_EC_ERR` the claim
predicts), updates the believed address, and its trace contains exactly one
read transaction, which is the very first operation — so no post-write
read-back of the cell is ever performed. -/
theorem set_mlx90614_device_slave_address_readback_counterexample :
    (busNoProbe.memRead 0xB4 MLX90614_SLAVE_ADDRESS_EEPROM_ADDRESS).2.1 =
      0x5A ∧
    (set_mlx90614_device_slave_address busNoProbe stDefault 0x3C).1 =
      MLX90614_EC_OK ∧
    (set_mlx90614_device_slave_address busNoProbe stDefault
      0x3C).1 ≠ MLX90614_EC_ERR ∧
    (set_mlx90614_device_slave_address busNoProbe stDefault
      0x3C).2.1.mlx90614_slave_address = 0x3C ∧
    ((set_mlx90614_device_slave_address busNoProbe stDefault
      0x3C).2.2.countP BusOp.isReadOp) = 1 ∧
    (set_mlx90614_device_slave_address busNoProbe stDefault 0x3C).2.2.head? =
      some (BusOp.readOp 0xB4 MLX90614_SLAVE_ADDRESS_EEPROM_ADDRESS) := by
  refine ⟨by decide, by decide, by decide, by decide, by decide, by decide⟩

/-- C5 as amended: after the erase and write transactions succeed, no
post-write read-back of the non-volatile address cell is performed — the
single read of the sequence is its very first transaction, issued before the
erase — and the operation returns success and optimistically updates the
believed address regardless of the cell's contents. -/
theorem set_mlx90614_device_slave_address_no_readback (bus : Bus)
    (s : DriverState) (a : Nat)
    (hmin : MLX90614_MIN_VALID_SLAVE_ADDRESS_VALUE ≤ a)
    (hmax : a ≤ MLX90614_MAX_VALID_SLAVE_ADDRESS_VALUE)
    (h1 : HAL_ret_handler
      (bus.memRead s.mlx90614_slave_address_one_bit_left_shifted
        MLX90614_SLAVE_ADDRESS_EEPROM_ADDRESS).1 = MLX90614_EC_OK)
    (h2 : HAL_ret_handler
      (bus.transmit s.mlx90614_slave_address_one_bit_left_shifted
        (mlx90614_eeprom_write_frame s.mlx90614_slave_address_one_bit_left_shifted
          MLX90614_SLAVE_ADDRESS_EEPROM_ERASE_VALUE
          MLX90614_SLAVE_ADDRESS_EEPROM_ERASE_VALUE)) = MLX90614_EC_OK)
    (h3 : HAL_ret_handler
      (bus.transmit s.mlx90614_slave_address_one_bit_left_shifted
        (mlx90614_eeprom_write_frame s.mlx90614_slave_address_one_bit_left_shifted
          a ((bus.memRead s.mlx90614_slave_address_one_bit_left_shifted
            MLX90614_SLAVE_ADDRESS_EEPROM_ADDRESS).2.2 % 256))) =
      MLX90614_EC_OK) :
    (set_mlx90614_device_slave_address bus s a).1 = MLX90614_EC_OK ∧
    (set_mlx90614_device_slave_address bus s a).2.1.mlx90614_slave_address =
      a ∧
    ((set_mlx90614_device_slave_address bus s a).2.2.countP BusOp.isReadOp) =
      1 ∧
    (set_mlx90614_device_slave_address bus s a).2.2.head? =
      some (BusOp.readOp s.mlx90614_slave_address_one_bit_left_shifted
        MLX90614_SLAVE_ADDRESS_EEPROM_ADDRESS) := by
  have hrange : ¬(a > MLX90614_MAX_VALID_SLAVE_ADDRESS_VALUE ∨
      a < MLX90614_MIN_VALID_SLAVE_ADDRESS_VALUE) := by
    push_neg
    exact ⟨hmax, hmin⟩
  simp only [set_mlx90614_device_slave_address, if_neg hrange, MLX90614_EC_OK,
    HAL_OK] at h1 h2 h3 ⊢
  simp [h1, h2, h3, List.countP_cons, BusOp.isReadOp]

/-- Witness for the amended C5 at concrete inputs. -/
theorem set_mlx90614_device_slave_address_no_readback_witness :
    MLX90614_MIN_VALID_SLAVE_ADDRESS_VALUE ≤ 0x3C ∧
    0x3C ≤ MLX90614_MAX_VALID_SLAVE_ADDRESS_VALUE ∧
    (set_mlx90614_device_slave_address busNoProbe stDefault 0x3C).1 =
      MLX90614_EC_OK ∧
    ((set_mlx90614_device_slave_address busNoProbe stDefault
      0x3C).2.2.countP BusOp.isReadOp) = 1 :=
  ⟨by decide, by decide,
    (set_mlx90614_device_slave_address_no_readback busNoProbe stDefault 0x3C
      (by decide) (by decide) (by decide) (by decide) (by decide)).1,
    (set_mlx90614_device_slave_address_no_readback busNoProbe stDefault 0x3C
      (by decide) (by decide) (by decide) (by decide) (by decide)).2.2.1⟩

/-- Counterexample to C6: the requested address `2` is non-zero and lies
below the valid range's lower bound `0x03`, yet `init_mlx90614_module` does
not return the invalid-argument error without probing: on a silent bus it
probes wire address `4` and returns `MLX90614_EC_NR`, and on a bus that
answers it even accepts the out-of-range address and stores it. -/
theorem init_mlx90614_module_lower_bound_counterexample :
    (2 : Nat) ≠ 0 ∧ 2 < MLX90614_MIN_VALID_SLAVE_ADDRESS_VALUE ∧
    (init_mlx90614_module busNoProbe stOther 7 2 MLX90614_Temp_C).1 =
      MLX90614_EC_NR ∧
    (init_mlx90614_module busNoProbe stOther 7 2 MLX90614_Temp_C).1 ≠
      MLX90614_EC_ERR ∧
    (init_mlx90614_module busNoProbe stOther 7 2 MLX90614_Temp_C).2.2 =
      [BusOp.probeOp 4] ∧
    (init_mlx90614_module busAlwaysReady stOther 7 2 MLX90614_Temp_C).1 =
      MLX90614_EC_OK ∧
    (init_mlx90614_module busAlwaysReady stOther 7 2
      MLX90614_Temp_C).2.1.mlx90614_slave_address = 2 := by
  refine ⟨by decide, by decide, by decide, by decide, by decide, by decide,
    by decide⟩

/-- C6 as amended: `init_mlx90614_module` validates only the upper bound of
the valid range — every address above the maximum is rejected with the
invalid-argument error without probing the bus; a zero address keeps the
current (factory-default) believed address and issues no bus traffic; and
every non-zero address not exceeding the maximum (including the addresses 1
and 2 below the documented minimum) is probed, returning `MLX90614_EC_NR`
with the state untouched when the probe does not succeed. -/
theorem init_mlx90614_module_validation (bus : Bus) (s : DriverState)
    (hi2c a t : Nat) :
    (a > MLX90614_MAX_VALID_SLAVE_ADDRESS_VALUE →
      init_mlx90614_module bus s hi2c a t = (MLX90614_EC_ERR, s, [])) ∧
    (a = 0 →
      (init_mlx90614_module bus s hi2c a t).2.1.mlx90614_slave_address =
        s.mlx90614_slave_address ∧
      (init_mlx90614_module bus s hi2c a t).2.2 = []) ∧
    (a ≠ 0 → a ≤ MLX90614_MAX_VALID_SLAVE_ADDRESS_VALUE →
      bus.isDeviceReady ((a <<< 1) % 256) ≠ HAL_OK →
      init_mlx90614_module bus s hi2c a t =
        (MLX90614_EC_NR, s, [BusOp.probeOp ((a <<< 1) % 256)])) := by
  refine ⟨fun h => ?_, fun h => ?_, fun h0 hmax hready => ?_⟩
  · simp only [init_mlx90614_module, if_pos h]
  · subst h
    simp only [init_mlx90614_module]
    norm_num [MLX90614_MAX_VALID_SLAVE_ADDRESS_VALUE]
    split_ifs <;> simp
  · have hng : ¬(a > MLX90614_MAX_VALID_SLAVE_ADDRESS_VALUE) := by omega
    simp only [init_mlx90614_module, if_neg hng, if_pos h0]
    simp [hready]

/-- Witness for the amended C6 at concrete inputs: address `200` is rejected
without bus traffic; address `0` keeps the believed address `0x10` silently;
the below-minimum address `2` is probed and fails with `MLX90614_EC_NR`. -/
theorem init_mlx90614_module_validation_witness :
    (200 > MLX90614_MAX_VALID_SLAVE_ADDRESS_VALUE) ∧
    init_mlx90614_module busNoProbe stOther 7 200 MLX90614_Temp_C =
      (MLX90614_EC_ERR, stOther, []) ∧
    (init_mlx90614_module busNoProbe stOther 7 0
      MLX90614_Temp_C).2.1.mlx90614_slave_address = 0x10 ∧
    (init_mlx90614_module busNoProbe stOther 7 0 MLX90614_Temp_C).2.2 = [] ∧
    init_mlx90614_module busNoProbe stOther 7 2 MLX90614_Temp_C =
      (MLX90614_EC_NR, stOther, [BusOp.probeOp 4]) := by
  refine ⟨by decide, ?_, ?_, ?_, ?_⟩
  · exact (init_mlx90614_module_validation busNoProbe stOther 7 200
      MLX90614_Temp_C).1 (by decide)
  · have h := (init_mlx90614_module_validation busNoProbe stOther 7 0
      MLX90614_Temp_C).2.1 rfl
    rw [h.1]
    decide
  · exact ((init_mlx90614_module_validation busNoProbe stOther 7 0
      MLX90614_Temp_C).2.1 rfl).2
  · have h := (init_mlx90614_module_validation busNoProbe stOther 7 2
      MLX90614_Temp_C).2.2 (by decide) (by decide) (by decide)
    rw [h]
    decide

/-- C7: whenever the transport read succeeds but the reassembled raw 16-bit
channel value has its top bit set (is greater than `0x7FFF`), each of the
three channel reads — ambient, object1, object2 — returns the device-error
status `MLX90614_EC_ERR`, and the output location is not written (so the raw
value is never passed to a conversion function), whatever conversion is
currently selected in the state. -/
theorem get_temperature_error_flag (bus : Bus) (s : DriverState) :
    (HAL_ret_handler (bus.memRead s.mlx90614_slave_address_one_bit_left_shifted
        MLX90614_TA_RAM_ADDRESS).1 = MLX90614_EC_OK →
      ((bus.memRead s.mlx90614_slave_address_one_bit_left_shifted
        MLX90614_TA_RAM_ADDRESS).2.2 % 256) <<< 8 |||
        ((bus.memRead s.mlx90614_slave_address_one_bit_left_shifted
          MLX90614_TA_RAM_ADDRESS).2.1 % 256) > 0x7FFF →
      get_mlx90614_ambient_temperature bus s =
        (MLX90614_EC_ERR, none,
          [BusOp.readOp s.mlx90614_slave_address_one_bit_left_shifted
            MLX90614_TA_RAM_ADDRESS])) ∧
    (HAL_ret_handler (bus.memRead s.mlx90614_slave_address_one_bit_left_shifted
        MLX90614_TOBJ1_RAM_ADDRESS).1 = MLX90614_EC_OK →
      ((bus.memRead s.mlx90614_slave_address_one_bit_left_shifted
        MLX90614_TOBJ1_RAM_ADDRESS).2.2 % 256) <<< 8 |||
        ((bus.memRead s.mlx90614_slave_address_one_bit_left_shifted
          MLX90614_TOBJ1_RAM_ADDRESS).2.1 % 256) > 0x7FFF →
      get_mlx90614_object1_temperature bus s =
        (MLX90614_EC_ERR, none,
          [BusOp.readOp s.mlx90614_slave_address_one_bit_left_shifted
            MLX90614_TOBJ1_RAM_ADDRESS])) ∧
    (HAL_ret_handler (bus.memRead s.mlx90614_slave_address_one_bit_left_shifted
        MLX90614_TOBJ2_RAM_ADDRESS).1 = MLX90614_EC_OK →
      ((bus.memRead s.mlx90614_slave_address_one_bit_left_shifted
        MLX90614_TOBJ2_RAM_ADDRESS).2.2 % 256) <<< 8 |||
        ((bus.memRead s.mlx90614_slave_address_one_bit_left_shifted
          MLX90614_TOBJ2_RAM_ADDRESS).2.1 % 256) > 0x7FFF →
      get_mlx90614_object2_temperature bus s =
        (MLX90614_EC_ERR, none,
          [BusOp.readOp s.mlx90614_slave_address_one_bit_left_shifted
            MLX90614_TOBJ2_RAM_ADDRESS])) := by
  refine ⟨fun h1 hraw => ?_, fun h1 hraw => ?_, fun h1 hraw => ?_⟩
  · simp only [get_mlx90614_ambient_temperature, MLX90614_EC_OK, HAL_OK]
      at h1 ⊢
    simp [h1, if_pos hraw]
  · simp only [get_mlx90614_object1_temperature, MLX90614_EC_OK, HAL_OK]
      at h1 ⊢
    simp [h1, if_pos hraw]
  · simp only [get_mlx90614_object2_temperature, MLX90614_EC_OK, HAL_OK]
      at h1 ⊢
    simp [h1, if_pos hraw]

/-- Witness for C7 at concrete inputs: on `busDeviceAt90` every read returns
the error-flagged raw sample `0x8000`, and all three channel reads from the
default state return `MLX90614_EC_ERR` without writing the output. -/
theorem get_temperature_error_flag_witness :
    HAL_ret_handler (busDeviceAt90.memRead 0xB4 MLX90614_TA_RAM_ADDRESS).1 =
      MLX90614_EC_OK ∧
    get_mlx90614_ambient_temperature busDeviceAt90 stDefault =
      (MLX90614_EC_ERR, none, [BusOp.readOp 0xB4 MLX90614_TA_RAM_ADDRESS]) ∧
    get_mlx90614_object1_temperature busDeviceAt90 stDefault =
      (MLX90614_EC_ERR, none, [BusOp.readOp 0xB4 MLX90614_TOBJ1_RAM_ADDRESS]) ∧
    get_mlx90614_object2_temperature busDeviceAt90 stDefault =
      (MLX90614_EC_ERR, none, [BusOp.readOp 0xB4 MLX90614_TOBJ2_RAM_ADDRESS]) := by
  refine ⟨by decide, ?_, ?_, ?_⟩
  · exact (get_temperature_error_flag busDeviceAt90 stDefault).1
      (by decide) (by decide)
  · exact (get_temperature_error_flag busDeviceAt90 stDefault).2.1
      (by decide) (by decide)
  · exact (get_temperature_error_flag busDeviceAt90 stDefault).2.2
      (by decide) (by decide)

/-- Counterexample to C8: under the code's own conversion formulas the raw
value `13807` converts to `2.99` degrees Celsius — not `0.0` within `1e-3` —
and to `37.382` degrees Fahrenheit — not `32.0` within `1e-2` (the raw value
corresponding to 0 °C would be `13657.5`, which is not an integer). -/
theorem conversion_test_vector_counterexample :
    get_mlx90614_converted_temperature_in_celsius 13807 = 2.99 ∧
    ¬(|get_mlx90614_converted_temperature_in_celsius 13807 - 0| ≤ 1 / 1000) ∧
    ¬(|get_mlx90614_converted_temperature_in_fahrenheit 13807 - 32| ≤
      1 / 100) := by
  norm_num [get_mlx90614_converted_temperature_in_celsius,
    get_mlx90614_converted_temperature_in_fahrenheit]
  constructor
  · rw [abs_of_pos] <;> norm_num
  · rw [abs_of_pos] <;> norm_num

/-- C8 as amended: for the raw value `13807` the Kelvin conversion yields
exactly `276.14`, the Celsius conversion yields `2.99` (hence within `1e-3`
of `2.99`), and the Fahrenheit conversion yields `37.382` (hence within
`1e-2` of `37.382`), with Kelvin = r/50, Celsius = r/50 − 273.15,
Fahrenheit = (r/50 − 273.15) × 1.8 + 32. -/
theorem conversion_values_at_13807 :
    get_mlx90614_converted_temperature_in_kelvin 13807 = 276.14 ∧
    get_mlx90614_converted_temperature_in_celsius 13807 = 2.99 ∧
    get_mlx90614_converted_temperature_in_fahrenheit 13807 = 37.382 ∧
    |get_mlx90614_converted_temperature_in_celsius 13807 - 2.99| ≤ 1 / 1000 ∧
    |get_mlx90614_converted_temperature_in_fahrenheit 13807 - 37.382| ≤
      1 / 100 := by
  norm_num [get_mlx90614_converted_temperature_in_kelvin,
    get_mlx90614_converted_temperature_in_celsius,
    get_mlx90614_converted_temperature_in_fahrenheit]

/-- C9: for each of the three channel reads, the output location is written
exactly when the operation returns `MLX90614_EC_OK`: on every failing
return — a mapped transport failure or the device error flag — the modelled
`*dst` cell stays `none`, and on success it holds the converted value. -/
theorem get_temperature_writes_iff_ok (bus : Bus) (s : DriverState) :
    ((get_mlx90614_ambient_temperature bus s).2.1.isSome ↔
      (get_mlx90614_ambient_temperature bus s).1 = MLX90614_EC_OK) ∧
    ((get_mlx90614_object1_temperature bus s).2.1.isSome ↔
      (get_mlx90614_object1_temperature bus s).1 = MLX90614_EC_OK) ∧
    ((get_mlx90614_object2_temperature bus s).2.1.isSome ↔
      (get_mlx90614_object2_temperature bus s).1 = MLX90614_EC_OK) := by
  refine ⟨?_, ?_, ?_⟩
  · simp only [get_mlx90614_ambient_temperature, MLX90614_EC_OK, HAL_OK,
      MLX90614_EC_ERR]
    split_ifs with h1 h2 <;> simp_all
  · simp only [get_mlx90614_object1_temperature, MLX90614_EC_OK, HAL_OK,
      MLX90614_EC_ERR]
    split_ifs with h1 h2 <;> simp_all
  · simp only [get_mlx90614_object2_temperature, MLX90614_EC_OK, HAL_OK,
      MLX90614_EC_ERR]
    split_ifs with h1 h2 <;> simp_all

/-- C10: `init_mlx90614_module` is not atomic with respect to failure — for
a non-zero address that passes validation and whose probe succeeds but with
an unrecognized temperature-unit value, it returns `MLX90614_EC_ERR` only
after the believed address, its wire-shifted form and the bus handle have
already been overwritten, while the temperature type and the conversion
pointer keep their previous values. -/
theorem init_mlx90614_module_not_atomic (bus : Bus) (s : DriverState)
    (hi2c a t : Nat) (h0 : a ≠ 0)
    (hmax : a ≤ MLX90614_MAX_VALID_SLAVE_ADDRESS_VALUE)
    (hready : bus.isDeviceReady ((a <<< 1) % 256) = HAL_OK)
    (htK : t ≠ MLX90614_Temp_K) (htC : t ≠ MLX90614_Temp_C)
    (htF : t ≠ MLX90614_Temp_F) :
    (init_mlx90614_module bus s hi2c a t).1 = MLX90614_EC_ERR ∧
    (init_mlx90614_module bus s hi2c a t).2.1.mlx90614_slave_address = a ∧
    (init_mlx90614_module bus s hi2c
      a t).2.1.mlx90614_slave_address_one_bit_left_shifted = (a <<< 1) % 256 ∧
    (init_mlx90614_module bus s hi2c a t).2.1.p_hi2c = hi2c ∧
    (init_mlx90614_module bus s hi2c a t).2.1.mlx90614_temperature_type =
      s.mlx90614_temperature_type ∧
    (init_mlx90614_module bus s hi2c
      a t).2.1.p_get_mlx90614_converted_temperature =
      s.p_get_mlx90614_converted_temperature := by
  have hng : ¬(a > MLX90614_MAX_VALID_SLAVE_ADDRESS_VALUE) := by omega
  simp only [init_mlx90614_module, if_neg hng, if_pos h0]
  simp [hready, htK, htC, htF]

/-- Witness for C10 at concrete inputs: initializing with the in-range,
responding address `90` and the unrecognized temperature type `5` fails with
`MLX90614_EC_ERR`, yet the state has already been mutated to address `90`,
wire form `180` and bus handle `7`. -/
theorem init_mlx90614_module_not_atomic_witness :
    busDeviceAt90.isDeviceReady ((90 <<< 1) % 256) = HAL_OK ∧ (5 : Nat) ≠
      MLX90614_Temp_K ∧
    (init_mlx90614_module busDeviceAt90 stOther 7 90 5).1 =
      MLX90614_EC_ERR ∧
    (init_mlx90614_module busDeviceAt90 stOther 7 90
      5).2.1.mlx90614_slave_address = 90 ∧
    (init_mlx90614_module busDeviceAt90 stOther 7 90 5).2.1.p_hi2c = 7 := by
  refine ⟨by decide, by decide, ?_, ?_, ?_⟩
  · exact (init_mlx90614_module_not_atomic busDeviceAt90 stOther 7 90 5
      (by decide) (by decide) (by decide) (by decide) (by decide)
      (by decide)).1
  · exact (init_mlx90614_module_not_atomic busDeviceAt90 stOther 7 90 5
      (by decide) (by decide) (by decide) (by decide) (by decide)
      (by decide)).2.1
  · exact (init_mlx90614_module_not_atomic busDeviceAt90 stOther 7 90 5
      (by decide) (by decide) (by decide) (by decide) (by decide)
      (by decide)).2.2.2.1

end MLX90614
